import Mathlib

/-!
Shallow embedding of the container-stack reconciliation engine of
`src/coresdk/src/coresdk/interface.cpp` (splashkit-core).

Modelling conventions:
* The engine state is the triple of process-wide mutables that the file
  declares: `container_stack`, `errors_occurred`, `label_width`.
  The stack is a `List container_info` with the HEAD as the innermost
  (top, `container_stack.back()` in the C++) record, so the C++ reverse
  iteration `rbegin() .. rend()` is plain head-to-tail order here.
* Calls into the backend driver (`sk_interface_*`) are recorded as an
  emitted trace of `BEvent` values; each engine operation returns the new
  state paired with the list of backend calls it issued, in order.
* `_interface_sanity_check` only talks to the backend frame state
  (`sk_interface_is_started` / `sk_interface_capacity_limited` /
  `sk_interface_start`) and never touches the container stack, the error
  flag or the label width, so it is not modelled.
* Diagnostic logging (`CLOG`) has no effect on engine or backend state and
  is not modelled.
-/

/-- The C++ `enum class panel_type`. -/
inductive panel_type where
  | panel
  | inset
  | treenode
  | column
  | popup
deriving DecidableEq, Repr

/-- The C++ `struct container_info`; `layout_widths` defaults to `{-1}`
and `layout_height` to `0`, as in the source. -/
structure container_info where
  type : panel_type
  name : String
  layout_widths : List Int := [-1]
  layout_height : Int := 0
deriving DecidableEq, Repr

/-- One backend-driver call (`sk_interface_*`), as recorded in the trace. -/
inductive BEvent where
  /-- `sk_interface_start_panel` / `..._start_popup` / `..._start_inset` /
  `..._start_treenode` / `..._start_column`. -/
  | openContainer (type : panel_type) (name : String)
  /-- `sk_interface_end_panel` / `..._end_popup` / `..._end_inset` /
  `..._end_treenode` / `..._end_column`. -/
  | endContainer (type : panel_type)
  /-- `sk_interface_set_layout(count, widths, height)`. -/
  | setLayout (widths : List Int) (height : Int)
  /-- `sk_interface_get_container_size(w, h)`. -/
  | getContainerSize
  /-- `sk_interface_label(text)`. -/
  | labelCall (text : String)
  /-- any other widget primitive (`sk_interface_button`, `_checkbox`,
  `_slider`, `_number`, `_text_box`); the payload describes the call. -/
  | widgetCall (desc : String)
  /-- `sk_interface_draw(opts)`. -/
  | draw
deriving DecidableEq, Repr

/-- The process-wide mutable state of `interface.cpp`:
`container_stack`, `errors_occurred` and `label_width`. -/
structure InterfaceState where
  container_stack : List container_info
  errors_occurred : Bool
  label_width : Int
deriving DecidableEq, Repr

/-- The state at program start: empty stack, no errors,
`int label_width = 60;`. -/
def initState : InterfaceState :=
  { container_stack := [], errors_occurred := false, label_width := 60 }

/-- `_update_layout()`: if the stack is empty do nothing, otherwise issue
`sk_interface_set_layout` with the top record's widths and height. -/
def _update_layout (s : InterfaceState) : List BEvent :=
  match s.container_stack with
  | [] => []
  | c :: _ => [BEvent.setLayout c.layout_widths c.layout_height]

/-- `_push_container_stack(open, type, name)`: push a fresh record (default
layout) when `open` holds, then `_update_layout()` in either case. -/
def _push_container_stack (opened : Bool) (type : panel_type) (name : String)
    (s : InterfaceState) : InterfaceState × List BEvent :=
  let s' := if opened then
      { s with container_stack := { type := type, name := name } :: s.container_stack }
    else s
  (s', _update_layout s')

/-- `_pop_container_by_type(type)`: the switch dispatching to the
type-specific backend close call (`sk_interface_end_panel` etc.). -/
def _pop_container_by_type (type : panel_type) : BEvent :=
  match type with
  | panel_type.panel => BEvent.endContainer panel_type.panel
  | panel_type.popup => BEvent.endContainer panel_type.popup
  | panel_type.inset => BEvent.endContainer panel_type.inset
  | panel_type.treenode => BEvent.endContainer panel_type.treenode
  | panel_type.column => BEvent.endContainer panel_type.column

/-- The predicate of the recovery scan in `_pop_container_stack`:
`i->type == type && i->name == name`. -/
def matchesTN (type : panel_type) (name : String) (c : container_info) : Bool :=
  c.type == type && c.name == name

/-- `_pop_container_stack(type, name)`: the close/reconciliation algorithm.
Empty stack: set the error flag and return (no backend call). Matching top:
backend close for the top's type, pop. Otherwise set the error flag and scan
innermost-to-outermost for a `(type, name)` match; if absent return with the
stack untouched, else close-and-pop every record down to and including the
match. -/
def _pop_container_stack (type : panel_type) (name : String)
    (s : InterfaceState) : InterfaceState × List BEvent :=
  match s.container_stack with
  | [] => ({ s with errors_occurred := true }, [])
  | container :: rest =>
    if container.type = type ∧ container.name = name then
      ({ s with container_stack := rest }, [_pop_container_by_type container.type])
    else
      let s1 : InterfaceState := { s with errors_occurred := true }
      match s1.container_stack.findIdx? (matchesTN type name) with
      | none => (s1, [])
      | some d =>
        ({ s1 with container_stack := s1.container_stack.drop (d + 1) },
         (s1.container_stack.take (d + 1)).map (fun c => _pop_container_by_type c.type))

/-- `_two_column_layout()`: widths become `[label_width, -1]` on the top
record, then `_update_layout()`. No-op on an empty stack. -/
def _two_column_layout (s : InterfaceState) : InterfaceState × List BEvent :=
  match s.container_stack with
  | [] => (s, [])
  | c :: rest =>
    let s' := { s with container_stack := { c with layout_widths := [s.label_width, -1] } :: rest }
    (s', _update_layout s')

/-- The forced-closure loop inside `draw_interface()`: close-and-pop every
remaining record innermost-to-outermost, setting `errors_occurred` for each.
Returns the error flag after the loop and the backend calls issued. -/
def _close_all_loop (stack : List container_info) (errors : Bool) :
    Bool × List BEvent :=
  match stack with
  | [] => (errors, [])
  | c :: rest =>
    let r := _close_all_loop rest true
    (r.1, _pop_container_by_type c.type :: r.2)

/-- `draw_interface()`: force-close everything left open (setting the error
flag per record), emit the summary diagnostic if the flag is set, clear the
flag, and issue the single backend draw call. -/
def draw_interface (s : InterfaceState) : InterfaceState × List BEvent :=
  let r := _close_all_loop s.container_stack s.errors_occurred
  ({ container_stack := [], errors_occurred := false, label_width := s.label_width },
   r.2 ++ [BEvent.draw])

/-- `set_interface_label_width(width)`. -/
def set_interface_label_width (width : Int) (s : InterfaceState) : InterfaceState :=
  { s with label_width := width }

/-- `reset_layout()`: widths become `[-1]` on the top record, then
`_update_layout()`. No-op on an empty stack. -/
def reset_layout (s : InterfaceState) : InterfaceState × List BEvent :=
  match s.container_stack with
  | [] => (s, [])
  | c :: rest =>
    let s' := { s with container_stack := { c with layout_widths := [-1] } :: rest }
    (s', _update_layout s')

/-- `single_line_layout()`: widths cleared to `[]` on the top record, then
`_update_layout()`. No-op on an empty stack. -/
def single_line_layout (s : InterfaceState) : InterfaceState × List BEvent :=
  match s.container_stack with
  | [] => (s, [])
  | c :: rest =>
    let s' := { s with container_stack := { c with layout_widths := [] } :: rest }
    (s', _update_layout s')

/-- `start_custom_layout()`: identical body to `single_line_layout()`. -/
def start_custom_layout (s : InterfaceState) : InterfaceState × List BEvent :=
  match s.container_stack with
  | [] => (s, [])
  | c :: rest =>
    let s' := { s with container_stack := { c with layout_widths := [] } :: rest }
    (s', _update_layout s')

/-- `add_column(width)`: append `width` to the top record's widths, then
`_update_layout()`. No-op on an empty stack. -/
def add_column (width : Int) (s : InterfaceState) : InterfaceState × List BEvent :=
  match s.container_stack with
  | [] => (s, [])
  | c :: rest =>
    let s' := { s with container_stack :=
      { c with layout_widths := c.layout_widths ++ [width] } :: rest }
    (s', _update_layout s')

/-- `add_column_relative(width)`: query the container size from the backend
and append `(int)(w * width)` to the top record's widths, then
`_update_layout()`. No-op on an empty stack. The C++ computes
`(int)(w * width)` with `width : double`; that floating-point product is
not modelled — `relWidth` stands for its result, supplied as a parameter. -/
def add_column_relative (relWidth : Int) (s : InterfaceState) :
    InterfaceState × List BEvent :=
  match s.container_stack with
  | [] => (s, [])
  | c :: rest =>
    let s' := { s with container_stack :=
      { c with layout_widths := c.layout_widths ++ [relWidth] } :: rest }
    (s', BEvent.getContainerSize :: _update_layout s')

/-- `set_layout_height(height)`: set the top record's height, then
`_update_layout()`. No-op on an empty stack. -/
def set_layout_height (height : Int) (s : InterfaceState) :
    InterfaceState × List BEvent :=
  match s.container_stack with
  | [] => (s, [])
  | c :: rest =>
    let s' := { s with container_stack := { c with layout_height := height } :: rest }
    (s', _update_layout s')

/-- `enter_column()`: backend `sk_interface_start_column()`, then an
unconditional push of an anonymous column record. -/
def enter_column (s : InterfaceState) : InterfaceState × List BEvent :=
  let r := _push_container_stack true panel_type.column "" s
  (r.1, BEvent.openContainer panel_type.column "" :: r.2)

/-- `leave_column()`. -/
def leave_column (s : InterfaceState) : InterfaceState × List BEvent :=
  _pop_container_stack panel_type.column "" s

/-- The labeled overload `button(label, text)`: enter a column, apply the
two-column layout, emit the label, emit the plain widget
(`sk_interface_button`), leave the column. The widget's Boolean result does
not touch engine state and is not modelled. -/
def button_labeled (label text : String) (s : InterfaceState) :
    InterfaceState × List BEvent :=
  let r1 := enter_column s
  let r2 := _two_column_layout r1.1
  let r3 := leave_column r2.1
  (r3.1, r1.2 ++ r2.2 ++
    [BEvent.labelCall label, BEvent.widgetCall ("button " ++ text)] ++ r3.2)

/-- The labeled overload `checkbox(label, text, value)`; same shape as
`button_labeled`, ending with `sk_interface_checkbox`. -/
def checkbox_labeled (label text : String) (s : InterfaceState) :
    InterfaceState × List BEvent :=
  let r1 := enter_column s
  let r2 := _two_column_layout r1.1
  let r3 := leave_column r2.1
  (r3.1, r1.2 ++ r2.2 ++
    [BEvent.labelCall label, BEvent.widgetCall ("checkbox " ++ text)] ++ r3.2)

/-- The labeled overload `slider(label, value, min_value, max_value)`; the
float arguments flow only to the backend and are not modelled. -/
def slider_labeled (label : String) (s : InterfaceState) :
    InterfaceState × List BEvent :=
  let r1 := enter_column s
  let r2 := _two_column_layout r1.1
  let r3 := leave_column r2.1
  (r3.1, r1.2 ++ r2.2 ++
    [BEvent.labelCall label, BEvent.widgetCall "slider"] ++ r3.2)

/-- The labeled overload `number_box(label, value, step)`; the float
arguments flow only to the backend and are not modelled. -/
def number_box_labeled (label : String) (s : InterfaceState) :
    InterfaceState × List BEvent :=
  let r1 := enter_column s
  let r2 := _two_column_layout r1.1
  let r3 := leave_column r2.1
  (r3.1, r1.2 ++ r2.2 ++
    [BEvent.labelCall label, BEvent.widgetCall "number_box"] ++ r3.2)

/-- The labeled overload `text_box(label, value)`; the returned string does
not touch engine state and is not modelled. -/
def text_box_labeled (label value : String) (s : InterfaceState) :
    InterfaceState × List BEvent :=
  let r1 := enter_column s
  let r2 := _two_column_layout r1.1
  let r3 := leave_column r2.1
  (r3.1, r1.2 ++ r2.2 ++
    [BEvent.labelCall label, BEvent.widgetCall ("text_box " ++ value)] ++ r3.2)

/-!
A small operation language over the two internal stack primitives, used to
state the well-nested round-trip property (P1). `openC t n` is a public
`start_*`/`enter_*` call whose backend open succeeded (the backend open call
itself is recorded first, as in `start_panel` etc.); `closeC t n` is the
matching public `end_*`/`leave_*` call.
-/

/-- One engine-level container call. -/
inductive Op where
  | openC (type : panel_type) (name : String)
  | closeC (type : panel_type) (name : String)
deriving DecidableEq, Repr

/-- Run one `Op` on the state, returning the backend calls it issues. -/
def runOp (s : InterfaceState) : Op → InterfaceState × List BEvent
  | Op.openC t n =>
    let r := _push_container_stack true t n s
    (r.1, BEvent.openContainer t n :: r.2)
  | Op.closeC t n => _pop_container_stack t n s

/-- Run a sequence of `Op`s, concatenating the backend traces. -/
def runOps (s : InterfaceState) : List Op → InterfaceState × List BEvent
  | [] => (s, [])
  | op :: ops =>
    let r1 := runOp s op
    let r2 := runOps r1.1 ops
    (r2.1, r1.2 ++ r2.2)

/-- Well-nested call sequences: Dyck words over matching
`openC t n` / `closeC t n` pairs. -/
inductive WellNested : List Op → Prop
  | nil : WellNested []
  | wrap (t : panel_type) (n : String) {l : List Op} (h : WellNested l) :
      WellNested ([Op.openC t n] ++ l ++ [Op.closeC t n])
  | app {l₁ l₂ : List Op} (h₁ : WellNested l₁) (h₂ : WellNested l₂) :
      WellNested (l₁ ++ l₂)

/-- Replay a backend trace against the backend's own mirrored stack of open
containers: each `openContainer` pushes its `(type, name)`, each
`endContainer t` must find an open container of type `t` on top and pops it
(the backend close calls carry only the type); layout, widget and draw calls
leave the mirror untouched. `none` means a close arrived that does not match
the innermost open in LIFO order. -/
def traceStack : List BEvent → List (panel_type × String) →
    Option (List (panel_type × String))
  | [], st => some st
  | BEvent.openContainer t n :: evs, st => traceStack evs ((t, n) :: st)
  | BEvent.endContainer t :: evs, st =>
    match st with
    | [] => none
    | (t', _) :: st' => if t = t' then traceStack evs st' else none
  | BEvent.setLayout _ _ :: evs, st => traceStack evs st
  | BEvent.getContainerSize :: evs, st => traceStack evs st
  | BEvent.labelCall _ :: evs, st => traceStack evs st
  | BEvent.widgetCall _ :: evs, st => traceStack evs st
  | BEvent.draw :: evs, st => traceStack evs st

/-- Does a trace contain any `setLayout` call? -/
def containsSetLayout : List BEvent → Bool
  | [] => false
  | BEvent.setLayout _ _ :: _ => true
  | _ :: evs => containsSetLayout evs

/-! ### Helper lemmas -/

lemma pop_by_type_eq (t : panel_type) :
    _pop_container_by_type t = BEvent.endContainer t := by
  cases t <;> rfl

lemma close_all_loop_eq (stack : List container_info) (errors : Bool) :
    _close_all_loop stack errors =
      (errors || !stack.isEmpty, stack.map fun c => _pop_container_by_type c.type) := by
  induction stack generalizing errors with
  | nil => simp [_close_all_loop]
  | cons c rest ih => simp [_close_all_loop, ih]

lemma containsSetLayout_map_pop (l : List container_info) :
    containsSetLayout (l.map fun c => _pop_container_by_type c.type) = false := by
  induction l with
  | nil => rfl
  | cons c rest ih => rw [List.map_cons, pop_by_type_eq]; exact ih

lemma containsSetLayout_map_end (l : List container_info) :
    containsSetLayout (l.map fun c => BEvent.endContainer c.type) = false := by
  induction l with
  | nil => rfl
  | cons c rest ih => rw [List.map_cons]; exact ih

lemma containsSetLayout_take_map (k : Nat) (l : List container_info) :
    containsSetLayout
      ((l.map fun c => BEvent.endContainer c.type).take k) = false := by
  rw [← List.map_take]
  exact containsSetLayout_map_end _

lemma matchesTN_eq_false {t : panel_type} {n : String} {c : container_info}
    (h : ¬(c.type = t ∧ c.name = n)) : matchesTN t n c = false := by
  simp only [matchesTN, Bool.and_eq_false_iff, beq_eq_false_iff_ne, ne_eq]
  tauto

lemma matchesTN_eq_true {t : panel_type} {n : String} {c : container_info}
    (h1 : c.type = t) (h2 : c.name = n) : matchesTN t n c = true := by
  simp [matchesTN, h1, h2]

lemma findIdx?_split {α : Type} (p : α → Bool) (target : α) (below : List α) :
    ∀ (above : List α) (i : Nat), (∀ c ∈ above, p c = false) → p target = true →
      (above ++ target :: below).findIdx? p i = some (i + above.length) := by
  intro above
  induction above with
  | nil => intro i h1 h2; simp [h2]
  | cons a as ih =>
    intro i h1 h2
    have ha : p a = false := h1 a (List.mem_cons_self a as)
    have := ih (i + 1) (fun c hc => h1 c (List.mem_cons_of_mem a hc)) h2
    simp only [List.cons_append, List.findIdx?_cons, ha, Bool.false_eq_true,
      if_false, this, List.length_cons]
    congr 1
    omega

/-! ### Theorems for the claims -/

/-- C2: a close call on a non-empty stack whose `(kind, name)` equals the
innermost record's issues the type-specific backend close exactly once, pops
exactly that one record, and leaves the error flag untouched. -/
theorem close_matching_top (t : panel_type) (n : String) (s : InterfaceState)
    (c : container_info) (rest : List container_info)
    (hstack : s.container_stack = c :: rest) (ht : c.type = t) (hn : c.name = n) :
    _pop_container_stack t n s =
      ({ s with container_stack := rest }, [BEvent.endContainer t]) := by
  simp [_pop_container_stack, hstack, ht, hn, pop_by_type_eq]

/-- Witness for `close_matching_top`. -/
theorem close_matching_top_wit :
    _pop_container_stack panel_type.panel "p"
        ⟨[{ type := panel_type.panel, name := "p" }], false, 60⟩ =
      (⟨[], false, 60⟩, [BEvent.endContainer panel_type.panel]) :=
  close_matching_top panel_type.panel "p" _ _ _ rfl rfl rfl

/-- C3: a close call whose `(kind, name)` matches no record on the stack —
empty stack included — leaves the stack unchanged, issues no backend call at
all, and sets the error flag. -/
theorem close_not_found_inert (t : panel_type) (n : String) (s : InterfaceState)
    (h : ∀ c ∈ s.container_stack, ¬(c.type = t ∧ c.name = n)) :
    _pop_container_stack t n s = ({ s with errors_occurred := true }, []) := by
  cases hstack : s.container_stack with
  | nil => simp [_pop_container_stack, hstack]
  | cons c rest =>
    have hc : ¬(c.type = t ∧ c.name = n) :=
      h c (by rw [hstack]; exact List.mem_cons_self c rest)
    have hnone : (c :: rest).findIdx? (matchesTN t n) = none := by
      rw [List.findIdx?_eq_none_iff]
      intro x hx
      exact matchesTN_eq_false (h x (by rw [hstack]; exact hx))
    simp [_pop_container_stack, hstack, hc, hnone]

/-- Witness for `close_not_found_inert`. -/
theorem close_not_found_inert_wit :
    _pop_container_stack panel_type.inset "y"
        ⟨[{ type := panel_type.panel, name := "x" }], false, 60⟩ =
      (⟨[{ type := panel_type.panel, name := "x" }], true, 60⟩, []) :=
  close_not_found_inert panel_type.inset "y" _ (by decide)

/-- C5: `draw_interface` closes every remaining record innermost to
outermost via its type-specific backend close, pops them all, sets the error
flag if the stack was non-empty (the flag after the forced-close loop), and
returns with an empty stack and the error flag cleared; with `X` (outer,
a panel) and `Y` (inner, an inset) still open it closes `Y` then `X`. -/
theorem draw_forces_closure :
    (∀ s : InterfaceState,
       draw_interface s =
         ({ container_stack := [], errors_occurred := false,
            label_width := s.label_width },
          (s.container_stack.map fun c => BEvent.endContainer c.type) ++
            [BEvent.draw]) ∧
       (_close_all_loop s.container_stack s.errors_occurred).1 =
         (s.errors_occurred || !s.container_stack.isEmpty)) ∧
    draw_interface ⟨[{ type := panel_type.inset, name := "y" },
                     { type := panel_type.panel, name := "x" }], false, 60⟩ =
      (⟨[], false, 60⟩,
       [BEvent.endContainer panel_type.inset, BEvent.endContainer panel_type.panel,
        BEvent.draw]) := by
  constructor
  · intro s
    constructor
    · simp [draw_interface, close_all_loop_eq, pop_by_type_eq]
    · simp [close_all_loop_eq]
  · decide

/-- C6: every branch of the close algorithm pops an innermost segment of the
stack and issues exactly the type-specific backend closes of the popped
records, in pop order (so closes and pops are in bijection, and each pop is
preceded by its backend close; the branches that pop nothing issue nothing);
the draw-time forced closure does the same for the whole stack. -/
theorem backend_close_matches_pop :
    (∀ (t : panel_type) (n : String) (s : InterfaceState),
       ∃ k, (_pop_container_stack t n s).1.container_stack =
              s.container_stack.drop k ∧
            (_pop_container_stack t n s).2 =
              (s.container_stack.take k).map fun c => _pop_container_by_type c.type) ∧
    (∀ s : InterfaceState,
       (draw_interface s).1.container_stack = [] ∧
       (draw_interface s).2 =
         (s.container_stack.map fun c => _pop_container_by_type c.type) ++
           [BEvent.draw]) := by
  constructor
  · intro t n s
    cases hstack : s.container_stack with
    | nil => exact ⟨0, by simp [_pop_container_stack, hstack]⟩
    | cons c rest =>
      by_cases hc : c.type = t ∧ c.name = n
      · exact ⟨1, by simp [_pop_container_stack, hstack, hc]⟩
      · cases hfind : (c :: rest).findIdx? (matchesTN t n) with
        | none => exact ⟨0, by simp [_pop_container_stack, hstack, hc, hfind]⟩
        | some d => exact ⟨d + 1, by simp [_pop_container_stack, hstack, hc, hfind]⟩
  · intro s
    simp [draw_interface, close_all_loop_eq]

/-- C7 counterexample: a matching close on a stack of two records pops the
inner one — leaving the outer record as the new top — yet its backend trace
is the single `endContainer` call, with no `setLayout` call at all. So the
layout is NOT recomputed after every stack pop. -/
theorem pop_without_relayout_cex :
    _pop_container_stack panel_type.column ""
        ⟨[{ type := panel_type.column, name := "", layout_widths := [60, -1] },
          { type := panel_type.panel, name := "p" }], false, 60⟩ =
      (⟨[{ type := panel_type.panel, name := "p" }], false, 60⟩,
       [BEvent.endContainer panel_type.column]) ∧
    containsSetLayout (_pop_container_stack panel_type.column ""
        ⟨[{ type := panel_type.column, name := "", layout_widths := [60, -1] },
          { type := panel_type.panel, name := "p" }], false, 60⟩).2 = false := by
  decide

/-- C7 amended: after every accepted stack push the layout state of the new
top of stack is recomputed and pushed to the backend via set-layout; the
close operation's pops issue no set-layout call. -/
theorem push_updates_layout_pop_does_not :
    (∀ (t : panel_type) (n : String) (s : InterfaceState),
       _push_container_stack true t n s =
         ({ s with container_stack :=
              { type := t, name := n } :: s.container_stack },
          [BEvent.setLayout [-1] 0])) ∧
    (∀ (t : panel_type) (n : String) (s : InterfaceState),
       containsSetLayout (_pop_container_stack t n s).2 = false) := by
  constructor
  · intro t n s
    simp [_push_container_stack, _update_layout]
  · intro t n s
    cases hstack : s.container_stack with
    | nil => simp [_pop_container_stack, hstack, containsSetLayout]
    | cons c rest =>
      by_cases hc : c.type = t ∧ c.name = n
      · simp [_pop_container_stack, hstack, hc, pop_by_type_eq, containsSetLayout]
      · cases hfind : (c :: rest).findIdx? (matchesTN t n) with
        | none => simp [_pop_container_stack, hstack, hc, hfind, containsSetLayout]
        | some d =>
          simp [_pop_container_stack, hstack, hc, hfind, pop_by_type_eq,
                containsSetLayout, containsSetLayout_take_map]

/-- C8: with a non-empty stack, `reset_layout` makes the current (innermost)
container's width sequence exactly `[-1]`, and `_two_column_layout` with
`label_width = 60` makes it exactly `[60, -1]`. -/
theorem layout_reset_and_two_column (s : InterfaceState) (c : container_info)
    (rest : List container_info) (hstack : s.container_stack = c :: rest)
    (hlw : s.label_width = 60) :
    (reset_layout s).1.container_stack =
      { c with layout_widths := [-1] } :: rest ∧
    (_two_column_layout s).1.container_stack =
      { c with layout_widths := [60, -1] } :: rest := by
  constructor <;> simp [reset_layout, _two_column_layout, hstack, hlw]

/-- Witness for `layout_reset_and_two_column`. -/
theorem layout_reset_and_two_column_wit :
    (reset_layout
        ⟨[⟨panel_type.panel, "p", [2, 3], 5⟩], false, 60⟩).1.container_stack =
      [⟨panel_type.panel, "p", [-1], 5⟩] ∧
    (_two_column_layout
        ⟨[⟨panel_type.panel, "p", [2, 3], 5⟩], false, 60⟩).1.container_stack =
      [⟨panel_type.panel, "p", [60, -1], 5⟩] :=
  layout_reset_and_two_column ⟨[⟨panel_type.panel, "p", [2, 3], 5⟩], false, 60⟩
    ⟨panel_type.panel, "p", [2, 3], 5⟩ [] rfl rfl

/-- A layout mutator behaves as §4.3 requires on state `s`: a strict no-op
(state and backend untouched) when the stack is empty, and otherwise its
last backend call is `setLayout` with the updated top record's widths and
height, the rest of the stack being preserved. -/
def mutOK (op : InterfaceState → InterfaceState × List BEvent)
    (s : InterfaceState) : Prop :=
  (s.container_stack = [] → op s = (s, [])) ∧
  (∀ c rest, s.container_stack = c :: rest →
     ∃ c' pre, (op s).1.container_stack = c' :: rest ∧
       (op s).2 = pre ++ [BEvent.setLayout c'.layout_widths c'.layout_height])

/-- C9: each layout mutator (`reset_layout`, `single_line_layout`,
`start_custom_layout`, `add_column`, `add_column_relative`,
`set_layout_height`) is a strict no-op on an empty stack — unchanged state,
no backend call — and on a non-empty stack pushes the recomputed
`(widths, height)` pair of the top record to the backend as its final
backend call before returning. -/
theorem layout_mutators_spec :
    ∀ (w rw h : Int) (s : InterfaceState),
      mutOK reset_layout s ∧ mutOK single_line_layout s ∧
      mutOK start_custom_layout s ∧ mutOK (add_column w) s ∧
      mutOK (add_column_relative rw) s ∧ mutOK (set_layout_height h) s := by
  intro w rw h s
  refine ⟨⟨?_, ?_⟩, ⟨?_, ?_⟩, ⟨?_, ?_⟩, ⟨?_, ?_⟩, ⟨?_, ?_⟩, ⟨?_, ?_⟩⟩
  · intro hstack; simp [reset_layout, hstack]
  · intro c rest hstack
    exact ⟨{ c with layout_widths := [-1] }, [],
      by simp [reset_layout, hstack, _update_layout]⟩
  · intro hstack; simp [single_line_layout, hstack]
  · intro c rest hstack
    exact ⟨{ c with layout_widths := [] }, [],
      by simp [single_line_layout, hstack, _update_layout]⟩
  · intro hstack; simp [start_custom_layout, hstack]
  · intro c rest hstack
    exact ⟨{ c with layout_widths := [] }, [],
      by simp [start_custom_layout, hstack, _update_layout]⟩
  · intro hstack; simp [add_column, hstack]
  · intro c rest hstack
    exact ⟨{ c with layout_widths := c.layout_widths ++ [w] }, [],
      by simp [add_column, hstack, _update_layout]⟩
  · intro hstack; simp [add_column_relative, hstack]
  · intro c rest hstack
    exact ⟨{ c with layout_widths := c.layout_widths ++ [rw] },
      [BEvent.getContainerSize],
      by simp [add_column_relative, hstack, _update_layout]⟩
  · intro hstack; simp [set_layout_height, hstack]
  · intro c rest hstack
    exact ⟨{ c with layout_height := h }, [],
      by simp [set_layout_height, hstack, _update_layout]⟩

/-- Witness for `layout_mutators_spec`: the empty-stack no-op for
`reset_layout` and the final-set-layout shape for `add_column` on a
one-record stack. -/
theorem layout_mutators_spec_wit :
    reset_layout ⟨[], false, 60⟩ = (⟨[], false, 60⟩, []) ∧
    ∃ c' pre,
      (add_column 5 ⟨[⟨panel_type.panel, "p", [-1], 0⟩],
          false, 60⟩).1.container_stack = c' :: [] ∧
      (add_column 5 ⟨[⟨panel_type.panel, "p", [-1], 0⟩], false, 60⟩).2 =
        pre ++ [BEvent.setLayout c'.layout_widths c'.layout_height] :=
  ⟨(layout_mutators_spec 5 0 0 ⟨[], false, 60⟩).1.1 rfl,
   (layout_mutators_spec 5 0 0
       ⟨[⟨panel_type.panel, "p", [-1], 0⟩], false, 60⟩).2.2.2.1.2
     ⟨panel_type.panel, "p", [-1], 0⟩ [] rfl⟩

/-- C10: every labeled convenience widget wraps its body in exactly one
anonymous column — backend column open, default layout push, two-column
layout push, label, widget, backend column close, as the trace for the
labeled button shows — and returns with the engine state exactly as it was
on entry. -/
theorem labeled_widgets_preserve_stack :
    ∀ (lbl txt : String) (s : InterfaceState),
      (button_labeled lbl txt s).1 = s ∧
      (button_labeled lbl txt s).2 =
        [BEvent.openContainer panel_type.column "", BEvent.setLayout [-1] 0,
         BEvent.setLayout [s.label_width, -1] 0, BEvent.labelCall lbl,
         BEvent.widgetCall ("button " ++ txt),
         BEvent.endContainer panel_type.column] ∧
      (checkbox_labeled lbl txt s).1 = s ∧
      (slider_labeled lbl s).1 = s ∧
      (number_box_labeled lbl s).1 = s ∧
      (text_box_labeled lbl txt s).1 = s := by
  intro lbl txt s
  obtain ⟨st, er, lw⟩ := s
  refine ⟨?_, ?_, ?_, ?_, ?_, ?_⟩ <;>
    simp [button_labeled, checkbox_labeled, slider_labeled, number_box_labeled,
          text_box_labeled, enter_column, leave_column, _push_container_stack,
          _pop_container_stack, _two_column_layout, _update_layout, pop_by_type_eq]

/-- C1: a close call matching a record that is on the stack but not
innermost sets the error flag and unwinds: every record strictly above the
found one, innermost to outermost, gets its type-specific backend close and
is popped, then the target record gets its backend close and is popped too,
each exactly once, leaving exactly the part of the stack below the target. -/
theorem close_premature_unwinds (t : panel_type) (n : String)
    (s : InterfaceState) (above : List container_info)
    (target : container_info) (below : List container_info)
    (hstack : s.container_stack = above ++ target :: below)
    (habove : above ≠ [])
    (hnomatch : ∀ c ∈ above, ¬(c.type = t ∧ c.name = n))
    (ht : target.type = t) (hn : target.name = n) :
    _pop_container_stack t n s =
      ({ s with container_stack := below, errors_occurred := true },
       (above ++ [target]).map fun c => _pop_container_by_type c.type) := by
  obtain ⟨a, as, rfl⟩ : ∃ a as, above = a :: as := by
    cases above with
    | nil => exact absurd rfl habove
    | cons a as => exact ⟨a, as, rfl⟩
  have hc : ¬(a.type = t ∧ a.name = n) := hnomatch a (List.mem_cons_self a as)
  have hfind : List.findIdx? (matchesTN t n) (a :: (as ++ target :: below)) =
      some (as.length + 1) := by
    have := findIdx?_split (matchesTN t n) target below (a :: as) 0
      (fun c hc' => matchesTN_eq_false (hnomatch c hc'))
      (matchesTN_eq_true ht hn)
    simpa using this
  have hsplit : a :: (as ++ target :: below) =
      ((a :: as) ++ [target]) ++ below := by simp
  have hlen : ((a :: as) ++ [target]).length = as.length + 1 + 1 := by simp
  have hdrop : (a :: (as ++ target :: below)).drop (as.length + 1 + 1) = below := by
    rw [hsplit, List.drop_left' hlen]
  have htake : (a :: (as ++ target :: below)).take (as.length + 1 + 1) =
      (a :: as) ++ [target] := by
    rw [hsplit, List.take_left' hlen]
  simp [_pop_container_stack, hstack, hc, hfind, hdrop, htake]

/-- Witness for `close_premature_unwinds`: with open order `A` (a panel),
`B` (an inset), `C` (a treenode), closing `A` closes `C`, then `B`, then
`A`, and leaves the stack empty with the error flag set. -/
theorem close_premature_unwinds_wit :
    _pop_container_stack panel_type.panel "a"
        ⟨[⟨panel_type.treenode, "c", [-1], 0⟩, ⟨panel_type.inset, "b", [-1], 0⟩,
          ⟨panel_type.panel, "a", [-1], 0⟩], false, 60⟩ =
      (⟨[], true, 60⟩,
       [BEvent.endContainer panel_type.treenode,
        BEvent.endContainer panel_type.inset,
        BEvent.endContainer panel_type.panel]) := by
  have h := close_premature_unwinds panel_type.panel "a"
    ⟨[⟨panel_type.treenode, "c", [-1], 0⟩, ⟨panel_type.inset, "b", [-1], 0⟩,
      ⟨panel_type.panel, "a", [-1], 0⟩], false, 60⟩
    [⟨panel_type.treenode, "c", [-1], 0⟩, ⟨panel_type.inset, "b", [-1], 0⟩]
    ⟨panel_type.panel, "a", [-1], 0⟩ [] rfl (by decide) (by decide) rfl rfl
  simpa using h

lemma runOps_append (l₁ l₂ : List Op) : ∀ s : InterfaceState,
    runOps s (l₁ ++ l₂) =
      ((runOps (runOps s l₁).1 l₂).1,
       (runOps s l₁).2 ++ (runOps (runOps s l₁).1 l₂).2) := by
  induction l₁ with
  | nil => intro s; simp [runOps]
  | cons op ops ih => intro s; simp [runOps, ih, List.append_assoc]

lemma traceStack_append (e₁ e₂ : List BEvent) :
    ∀ st, traceStack (e₁ ++ e₂) st =
      (traceStack e₁ st).bind (traceStack e₂) := by
  induction e₁ with
  | nil => intro st; simp [traceStack]
  | cons ev evs ih =>
    intro st
    cases ev with
    | openContainer t n => simp [traceStack, ih]
    | endContainer t =>
      cases st with
      | nil => simp [traceStack]
      | cons top st' =>
        obtain ⟨t', n'⟩ := top
        by_cases h : t = t' <;> simp [traceStack, h, ih]
    | setLayout ws h => simp [traceStack, ih]
    | getContainerSize => simp [traceStack, ih]
    | labelCall txt => simp [traceStack, ih]
    | widgetCall d => simp [traceStack, ih]
    | draw => simp [traceStack, ih]

lemma wellNested_runOps {l : List Op} (h : WellNested l) :
    ∀ s : InterfaceState, (runOps s l).1 = s ∧
      ∀ st, traceStack (runOps s l).2 st = some st := by
  induction h with
  | nil => intro s; exact ⟨rfl, fun st => rfl⟩
  | wrap t n hl ih =>
    intro s
    rename_i l'
    constructor
    · rw [runOps_append, runOps_append]
      have hopen : (runOps s [Op.openC t n]).1 =
          { s with container_stack := { type := t, name := n } :: s.container_stack } := by
        simp [runOps, runOp, _push_container_stack]
      rw [hopen, (ih _).1]
      simp [runOps, runOp, _pop_container_stack]
    · intro st
      rw [runOps_append, runOps_append]
      have hopen : (runOps s [Op.openC t n]).1 =
          { s with container_stack := { type := t, name := n } :: s.container_stack } := by
        simp [runOps, runOp, _push_container_stack]
      have hopenEv : (runOps s [Op.openC t n]).2 =
          [BEvent.openContainer t n, BEvent.setLayout [-1] 0] := by
        simp [runOps, runOp, _push_container_stack, _update_layout]
      rw [hopen, (ih _).1, hopenEv]
      have hcloseEv : (runOps { s with container_stack :=
          { type := t, name := n } :: s.container_stack } [Op.closeC t n]).2 =
          [BEvent.endContainer t] := by
        simp [runOps, runOp, _pop_container_stack, pop_by_type_eq]
      rw [hcloseEv, traceStack_append]
      have hmid := (ih { s with container_stack :=
          { type := t, name := n } :: s.container_stack }).2 ((t, n) :: st)
      simp [traceStack, hmid]
  | app h₁ h₂ ih₁ ih₂ =>
    intro s
    rw [runOps_append]
    constructor
    · dsimp only
      rw [(ih₁ s).1, (ih₂ s).1]
    · intro st
      dsimp only
      rw [(ih₁ s).1, traceStack_append, (ih₁ s).2 st, Option.some_bind]
      exact (ih₂ s).2 st

/-- C4: any well-nested sequence of successful opens and matching closes,
run from the initial state (empty stack, error flag unset), ends with an
empty stack and the error flag still unset, and its backend trace is
balanced: every backend open call has exactly one matching backend close
call, in LIFO order. -/
theorem wellNested_round_trip (l : List Op) (h : WellNested l) :
    (runOps initState l).1.container_stack = [] ∧
    (runOps initState l).1.errors_occurred = false ∧
    traceStack (runOps initState l).2 [] = some [] := by
  obtain ⟨hstate, htrace⟩ := wellNested_runOps h initState
  exact ⟨by rw [hstate]; rfl, by rw [hstate]; rfl, htrace []⟩

/-- Witness for `wellNested_round_trip`: open a panel, open a column inside,
close the column, close the panel. -/
theorem wellNested_round_trip_wit :
    (runOps initState [Op.openC panel_type.panel "p", Op.openC panel_type.column "",
       Op.closeC panel_type.column "", Op.closeC panel_type.panel "p"]).1.container_stack = [] ∧
    (runOps initState [Op.openC panel_type.panel "p", Op.openC panel_type.column "",
       Op.closeC panel_type.column "", Op.closeC panel_type.panel "p"]).1.errors_occurred = false ∧
    traceStack (runOps initState [Op.openC panel_type.panel "p",
       Op.openC panel_type.column "", Op.closeC panel_type.column "",
       Op.closeC panel_type.panel "p"]).2 [] = some [] :=
  wellNested_round_trip _
    (WellNested.wrap panel_type.panel "p"
      (WellNested.wrap panel_type.column "" WellNested.nil))
